import Mathlib

/-!
# Verification of the agent-to-teams relay

A shallow embedding, in Lean 4, of the parts of the `agent-to-teams`
repository that the specification talks about:

* `src/backend/main.py` — the FastAPI relay: an in-memory session store
  (a Python dict keyed by session id), session CRUD, and `send_message`,
  which forwards a turn to the Azure OpenAI Responses API (full history on
  the first turn of a session, `previous_response_id` chaining afterwards).
* `src/teams-agent/app.py` and `src/teams-agent/backend_client.py` — the
  bot-facing caller: per-conversation session tracking and its
  retry-on-session-loss error handling.
* `src/step-by-step/step1/app.py` and `src/step-by-step/step3/app.py` —
  the streaming message handler: informative (thinking) frames, cumulative
  incremental frames, and a terminal final frame.

Python dicts are embedded as association lists with first-match lookup,
in-place replacement on assignment, and key removal on delete.  The
external HTTP world (the OpenAI client, the aiohttp calls of the bot) is
embedded as explicit oracles passed to the embedded functions; every call
the code issues is recorded in a returned trace so that theorems can count
and inspect requests.
-/

set_option autoImplicit false
set_option maxRecDepth 8000

namespace AgentToTeams

/-! ## Python dict model -/

/-- A Python `dict` with string keys: association list, first match wins. -/
abbrev Dict (α : Type) := List (String × α)

/-- `d[k]` / `d.get(k)`: value at the first occurrence of key `k`. -/
def dictGet {α : Type} : Dict α → String → Option α
  | [], _ => none
  | (k', v) :: rest, k => if k' == k then some v else dictGet rest k

/-- `d[k] = v`: replace the value at `k` if present, else append the pair. -/
def dictSet {α : Type} : Dict α → String → α → Dict α
  | [], k, v => [(k, v)]
  | (k', v') :: rest, k, v =>
      if k' == k then (k, v) :: rest else (k', v') :: dictSet rest k v

/-- `del d[k]`: remove the key `k`. -/
def dictDel {α : Type} : Dict α → String → Dict α
  | [], _ => []
  | (k', v') :: rest, k =>
      if k' == k then dictDel rest k else (k', v') :: dictDel rest k

/-! ## Backend relay data model (`src/backend/main.py`) -/

/-- One entry of a session's `messages` list: `{"role": ..., "content": ...}`. -/
structure Msg where
  role : String
  content : String
deriving DecidableEq, Repr

/-- One entry of `chat_sessions`: the per-session dict built by `create_session`. -/
structure Session where
  session_id : String
  created_at : String
  model : String
  messages : List Msg
  last_response_id : Option String
deriving DecidableEq, Repr

/-- The process-wide `chat_sessions` dict. -/
abbrev Store := Dict Session

/-- An `HTTPException`: status code and detail string. -/
structure HttpError where
  status : Nat
  detail : String
deriving DecidableEq, Repr

/-- The `MessageResponse` model returned by a successful `send_message`. -/
structure MessageResponse where
  session_id : String
  user_message : String
  assistant_message : String
  response_id : String
  timestamp : String
deriving DecidableEq, Repr

/-- A request issued to `client.responses.create`: either a first-turn
request carrying the full message history, or a chained request carrying
`previous_response_id` and only the new user turn. -/
inductive CompletionRequest where
  | full (model : String) (input : List Msg)
  | chained (model : String) (previous_response_id : String) (input : List Msg)
deriving DecidableEq, Repr

/-- The fields of the Responses API result that the relay reads. -/
structure CompletionResponse where
  output_text : String
  id : String
deriving DecidableEq, Repr

def CompletionRequest.isFull : CompletionRequest → Bool
  | .full _ _ => true
  | .chained _ _ _ => false

def CompletionRequest.isChained : CompletionRequest → Bool
  | .full _ _ => false
  | .chained _ _ _ => true

/-- Python truthiness of an optional string (`if session.get("last_response_id"):`):
`None` and the empty string are falsy. -/
def truthy : Option String → Bool
  | none => false
  | some s => !(s == "")

/-! ## Backend relay operations (`src/backend/main.py`) -/

/-- `POST /sessions` (`create_session`): allocate a session record with
empty history and no chain id and assign it into `chat_sessions`.  The
generated uuid4 and the wall-clock timestamp are passed in explicitly. -/
def create_session (session_id model created_at : String) (store : Store) :
    Session × Store :=
  let s : Session :=
    { session_id := session_id
      created_at := created_at
      model := model
      messages := []
      last_response_id := none }
  (s, dictSet store session_id s)

/-- `POST /sessions/{session_id}/messages` (`send_message`).  The upstream
OpenAI client is the oracle `completion`; an upstream exception is an
`Except.error` carrying `str(e)`.  Returns the endpoint result, the store
after the call, and the list of upstream requests issued. -/
def send_message (completion : CompletionRequest → Except String CompletionResponse)
    (store : Store) (session_id message now : String) :
    Except HttpError MessageResponse × Store × List CompletionRequest :=
  match dictGet store session_id with
  | none => (.error ⟨404, "Session not found"⟩, store, [])
  | some session =>
      let user_message := message
      let messages1 := session.messages ++ [⟨"user", user_message⟩]
      let session1 := { session with messages := messages1 }
      let store1 := dictSet store session_id session1
      let req : CompletionRequest :=
        if truthy session1.last_response_id then
          .chained session1.model (session1.last_response_id.getD "")
            [⟨"user", user_message⟩]
        else
          .full session1.model messages1
      match completion req with
      | .error e =>
          (.error ⟨500, "Error communicating with Azure OpenAI: " ++ e⟩,
            store1, [req])
      | .ok resp =>
          let messages2 := messages1 ++ [⟨"assistant", resp.output_text⟩]
          let session2 :=
            { session1 with
                messages := messages2
                last_response_id := some resp.id }
          let store2 := dictSet store1 session_id session2
          (.ok { session_id := session_id
                 user_message := user_message
                 assistant_message := resp.output_text
                 response_id := resp.id
                 timestamp := now },
            store2, [req])

/-- `DELETE /sessions/{session_id}` (`delete_session`). -/
def delete_session (store : Store) (session_id : String) :
    Except HttpError String × Store :=
  match dictGet store session_id with
  | none => (.error ⟨404, "Session not found"⟩, store)
  | some _ =>
      (.ok ("Session " ++ session_id ++ " deleted successfully"),
        dictDel store session_id)

/-- Run a list of turns against one session, each turn a user text paired
with the upstream response for that turn (every upstream call succeeds).
Returns the final store and the concatenated upstream request trace. -/
def run_turns (store : Store) (session_id : String) :
    List (String × CompletionResponse) → Store × List CompletionRequest
  | [] => (store, [])
  | (u, r) :: rest =>
      let out := send_message (fun _ => .ok r) store session_id u ""
      let next := run_turns out.2.1 session_id rest
      (next.1, out.2.2 ++ next.2)

/-! ## Streaming message handler (`src/step-by-step/step1/app.py`,
`src/step-by-step/step3/app.py`)

Both files produce the identical frame stream: four informative (typing)
frames, one cumulative incremental (typing) frame per whitespace word of
the response text, and one final (message) frame with no sequence number.
-/

/-- Python `str.split()` / `str.strip()` whitespace. -/
def isPySpace (c : Char) : Bool :=
  c == ' ' || c == '\t' || c == '\n' || c == '\r' || c == '\x0b' || c == '\x0c'

/-- One step of `str.split()`: start a new group at whitespace, otherwise
extend the current first group. -/
def splitStep (c : Char) (acc : List (List Char)) : List (List Char) :=
  if isPySpace c then [] :: acc
  else
    match acc with
    | [] => [[c]]
    | w :: rest => (c :: w) :: rest

/-- Python `s.split()`: split on runs of whitespace, dropping empty pieces. -/
def pySplit (s : String) : List String :=
  ((s.toList.foldr splitStep []).filter (fun w => !w.isEmpty)).map String.mk

/-- Python `s.strip()`: drop leading and trailing whitespace. -/
def pyStrip (s : String) : String :=
  String.mk (((s.toList.dropWhile isPySpace).reverse.dropWhile isPySpace).reverse)

/-- The `streamType` entity value of a frame. -/
inductive StreamType where
  | informative
  | streaming
  | final
deriving DecidableEq, Repr

/-- One activity sent by the streaming handler: its activity type
(`typing` or `message`), its text, and its `streaminfo` entity. -/
structure Frame where
  activityType : String
  text : String
  streamType : StreamType
  streamSequence : Option Nat
deriving DecidableEq, Repr

instance : Inhabited Frame := ⟨⟨"", "", .final, none⟩⟩

/-- The hard-coded thinking events of `on_message`. -/
def thinking_events : List String :=
  ["Got it, looking into it", "Searching Internet", "Searching Knowledge base",
    "Thinking"]

/-- The hard-coded `full_response` of `on_message`. -/
def full_response : String :=
  "Hello, this is test message from Python! [1][2] This demonstrates how citations work in Microsoft Teams and Copilot."

/-- The first loop of `on_message`: one informative typing frame per
thinking event, with the running `sequence` counter.  Returns the frames
and the counter value after the loop. -/
def informativeFrames : List String → Nat → List Frame × Nat
  | [], seq => ([], seq)
  | t :: rest, seq =>
      let out := informativeFrames rest (seq + 1)
      (⟨"typing", t, .informative, some seq⟩ :: out.1, out.2)

/-- The second loop of `on_message`: `accumulated_text += word + " "` and
one streaming typing frame per word carrying `accumulated_text.strip()`. -/
def streamingFrames : List String → String → Nat → List Frame × Nat
  | [], _, seq => ([], seq)
  | w :: rest, acc, seq =>
      let acc1 := acc ++ w ++ " "
      let out := streamingFrames rest acc1 (seq + 1)
      (⟨"typing", pyStrip acc1, .streaming, some seq⟩ :: out.1, out.2)

/-- The full frame stream produced by `on_message` for response text
`resp`: informative frames, then cumulative incremental frames, then the
single final message frame (no `streamSequence`). -/
def on_message_frames (resp : String) : List Frame :=
  let inf := informativeFrames thinking_events 1
  let inc := streamingFrames (pySplit resp) "" inf.2
  inf.1 ++ inc.1 ++ [⟨"message", resp, .final, none⟩]

/-! ## Bot-facing caller (`src/teams-agent/app.py`,
`src/teams-agent/backend_client.py`) -/

/-- Python `s.startswith(p)`. -/
def pyStartsWith (s p : String) : Bool :=
  p.toList.isPrefixOf s.toList

/-- Python `s.lower()` (ASCII suffices for the strings involved). -/
def pyLower (s : String) : String :=
  String.mk (s.toList.map Char.toLower)

/-- Python `pat in s`: substring containment. -/
def hasSubstr (s pat : String) : Bool :=
  (List.range (s.toList.length + 1)).any
    (fun i => pat.toList.isPrefixOf (s.toList.drop i))

/-- The retry classifier of `on_message` in `teams-agent/app.py`:
`"404" in error_msg or "session" in error_msg.lower()`. -/
def isSessionError (msg : String) : Bool :=
  hasSubstr msg "404" || hasSubstr (pyLower msg) "session"

/-- The outcome of one aiohttp call made by `BackendClient`: an HTTP
response with a status code (and, for 200, the extracted payload field),
or a transport-level exception with message `msg`. -/
inductive HttpOutcome where
  | status (code : Nat) (value : String)
  | netError (msg : String)

/-- `BackendClient.create_session`: 200 returns the session id, anything
else raises `Failed to create session: {status}`. -/
def clientCreateSession : HttpOutcome → Except String String
  | .status 200 v => .ok v
  | .status c _ => .error ("Failed to create session: " ++ toString c)
  | .netError m => .error m

/-- `BackendClient.send_message`: 200 returns the assistant message, 404
raises `Session not found`, anything else raises
`Failed to send message: {status}`. -/
def clientSendMessage : HttpOutcome → Except String String
  | .status 200 v => .ok v
  | .status 404 _ => .error "Session not found"
  | .status c _ => .error ("Failed to send message: " ++ toString c)
  | .netError m => .error m

/-- A backend call issued by the bot during one turn. -/
inductive BackendCall where
  | createSession
  | sendMsg (session_id : String) (message : String)
deriving DecidableEq, Repr

/-- The observable result of one bot turn: backend calls issued in order,
final `conversation_sessions` map, and the activities sent to the user. -/
structure TurnOutcome where
  calls : List BackendCall
  sessions : Dict String
  activities : List String
deriving DecidableEq, Repr

/-- The activity text sent when the retry path itself fails. -/
def troubleActivity : String :=
  "Sorry, I\x27m having trouble connecting to the AI service. Please try again later."

/-- The activity text sent for a non-retried failure. -/
def genericErrorActivity : String :=
  "Sorry, something went wrong. Please try again."

/-- The `except` branch of `on_message` in `teams-agent/app.py`: on an
error whose message matches `isSessionError`, create a fresh session and
retry the same user message exactly once; otherwise send the generic
error activity.  `idx` numbers the next backend call in the oracle. -/
def handleTurnError (oracle : Nat → HttpOutcome) (idx : Nat)
    (calls : List BackendCall) (sessions : Dict String)
    (conversation_id user_message e : String) : TurnOutcome :=
  if isSessionError e then
    match clientCreateSession (oracle idx) with
    | .error _ =>
        ⟨calls ++ [.createSession], sessions, [troubleActivity]⟩
    | .ok sid2 =>
        let sessions2 := dictSet sessions conversation_id sid2
        match clientSendMessage (oracle (idx + 1)) with
        | .ok resp =>
            ⟨calls ++ [.createSession, .sendMsg sid2 user_message],
              sessions2, [resp]⟩
        | .error _ =>
            ⟨calls ++ [.createSession, .sendMsg sid2 user_message],
              sessions2, [troubleActivity]⟩
  else
    ⟨calls, sessions, [genericErrorActivity]⟩

/-- `on_message` of `teams-agent/app.py`.  The backend is the oracle:
`oracle k` is the outcome of the k-th HTTP call of this turn. -/
def on_message_teams (oracle : Nat → HttpOutcome) (sessions : Dict String)
    (conversation_id user_message : String) : TurnOutcome :=
  if user_message == "" || pyStartsWith user_message "/" then
    ⟨[], sessions, []⟩
  else
    match dictGet sessions conversation_id with
    | some sid =>
        if sid == "" then
          -- stored id falsy: create a session first, as for a missing entry
          match clientCreateSession (oracle 0) with
          | .error e =>
              handleTurnError oracle 1 [.createSession] sessions
                conversation_id user_message e
          | .ok sid1 =>
              let sessions1 := dictSet sessions conversation_id sid1
              match clientSendMessage (oracle 1) with
              | .ok resp =>
                  ⟨[.createSession, .sendMsg sid1 user_message], sessions1,
                    [resp]⟩
              | .error e =>
                  handleTurnError oracle 2
                    [.createSession, .sendMsg sid1 user_message] sessions1
                    conversation_id user_message e
        else
          match clientSendMessage (oracle 0) with
          | .ok resp =>
              ⟨[.sendMsg sid user_message], sessions, [resp]⟩
          | .error e =>
              handleTurnError oracle 1 [.sendMsg sid user_message] sessions
                conversation_id user_message e
    | none =>
        match clientCreateSession (oracle 0) with
        | .error e =>
            handleTurnError oracle 1 [.createSession] sessions
              conversation_id user_message e
        | .ok sid1 =>
            let sessions1 := dictSet sessions conversation_id sid1
            match clientSendMessage (oracle 1) with
            | .ok resp =>
                ⟨[.createSession, .sendMsg sid1 user_message], sessions1,
                  [resp]⟩
            | .error e =>
                handleTurnError oracle 2
                  [.createSession, .sendMsg sid1 user_message] sessions1
                  conversation_id user_message e

/-! ## Auxiliary definitions used by the theorems -/

/-- The position of a `streamType` in the required phase order:
informative frames, then incremental (streaming) frames, then the final
frame. -/
def phaseRank : StreamType → Nat
  | .informative => 0
  | .streaming => 1
  | .final => 2

/-- The expected upstream request trace for a run of successful turns on a
session whose chain id is `rid`: each turn issues one chained request
carrying only that turn's user message, and the next turn chains on the id
returned for this one. -/
def chained_reqs (model rid : String) :
    List (String × CompletionResponse) → List CompletionRequest
  | [] => []
  | (u, r) :: rest => .chained model rid [⟨"user", u⟩] :: chained_reqs model r.id rest

/-- A freshly created session, as `create_session` would build it. -/
def demoSession : Session :=
  { session_id := "s1", created_at := "t0", model := "gpt-4o",
    messages := [], last_response_id := none }

/-- A store holding only the freshly created session `s1`. -/
def demoStore : Store := [("s1", demoSession)]

/-- A fixed upstream completion response. -/
def demoResp : CompletionResponse := { output_text := "Hi there", id := "resp-1" }

/-- An upstream oracle that always succeeds with `demoResp`. -/
def okCompletion : CompletionRequest → Except String CompletionResponse :=
  fun _ => .ok demoResp

/-- A `conversation_sessions` map of the bot holding one conversation. -/
def demoConvSessions : Dict String := [("c", "sidA")]

/-- Backend oracle for the bot turn in which the first call (a session
creation) fails with HTTP 500, and the subsequent calls succeed. -/
def oracleCreate500 : Nat → HttpOutcome
  | 0 => .status 500 ""
  | 1 => .status 200 "sid2"
  | _ => .status 200 "reply"

/-- Backend oracle for the bot turn in which the first call (the send to
the stored session) gets HTTP 404, and the retry path succeeds. -/
def oracle404ThenOk : Nat → HttpOutcome
  | 0 => .status 404 ""
  | 1 => .status 200 "sidB"
  | _ => .status 200 "all good"

/-! ## Dict lemmas -/

theorem dictGet_dictSet_self {α : Type} (d : Dict α) (k : String) (v : α) :
    dictGet (dictSet d k v) k = some v := by
  induction d with
  | nil => simp [dictGet, dictSet]
  | cons p rest ih =>
      obtain ⟨k', v'⟩ := p
      by_cases h : k' == k
      · simp [dictGet, dictSet, h]
      · simp only [dictSet, h, Bool.false_eq_true, if_false, dictGet, ih]

theorem dictGet_dictSet_ne {α : Type} (d : Dict α) (k k' : String) (v : α)
    (h : k' ≠ k) : dictGet (dictSet d k v) k' = dictGet d k' := by
  induction d with
  | nil =>
      simp only [dictSet, dictGet]
      have : (k == k') = false := by
        simp only [beq_eq_false_iff_ne, ne_eq]
        exact fun hk => h hk.symm
      simp [this]
  | cons p rest ih =>
      obtain ⟨a, b⟩ := p
      by_cases ha : a == k
      · have hak : a = k := by simpa using ha
        have : (k == k') = false := by
          simp only [beq_eq_false_iff_ne, ne_eq]
          exact fun hk => h hk.symm
        simp [dictSet, ha, dictGet, this, hak]
      · simp only [dictSet, ha, Bool.false_eq_true, if_false, dictGet]
        by_cases hb : a == k'
        · simp [hb]
        · simp [hb, ih]

theorem dictGet_dictDel_self {α : Type} (d : Dict α) (k : String) :
    dictGet (dictDel d k) k = none := by
  induction d with
  | nil => simp [dictDel, dictGet]
  | cons p rest ih =>
      obtain ⟨a, b⟩ := p
      by_cases ha : a == k
      · simp [dictDel, ha, ih]
      · simp [dictDel, ha, dictGet, ih]

theorem dictGet_dictDel_ne {α : Type} (d : Dict α) (k k' : String)
    (h : k' ≠ k) : dictGet (dictDel d k) k' = dictGet d k' := by
  induction d with
  | nil => simp [dictDel]
  | cons p rest ih =>
      obtain ⟨a, b⟩ := p
      by_cases ha : a == k
      · have hak : a = k := by simpa using ha
        have : (a == k') = false := by
          simp only [beq_eq_false_iff_ne, ne_eq, hak]
          exact fun hk => h hk.symm
        simp [dictDel, ha, dictGet, this, ih]
      · simp only [dictDel, ha, Bool.false_eq_true, if_false, dictGet]
        by_cases hb : a == k'
        · simp [hb]
        · simp [hb, ih]

/-! ## Helper lemmas -/

theorem take_append_pair {a : Type} (l : List a) (u v : a) :
    (l ++ [u, v]).take (l.length + 1) = l ++ [u] := by
  rw [show l ++ [u, v] = (l ++ [u]) ++ [v] from by simp, List.take_left' (by simp)]

theorem dictSet_dictSet {α : Type} (d : Dict α) (k : String) (v w : α) :
    dictSet (dictSet d k v) k w = dictSet d k w := by
  induction d with
  | nil => simp [dictSet]
  | cons p rest ih =>
      obtain ⟨a, b⟩ := p
      by_cases ha : a == k
      · simp [dictSet, ha]
      · simp [dictSet, ha, ih]

theorem filter_key_dictSet_of_none {α : Type} (d : Dict α) (k : String) (v : α)
    (h : dictGet d k = none) :
    ((dictSet d k v).filter (fun p => p.1 == k)).length = 1 := by
  induction d with
  | nil => simp [dictSet]
  | cons p rest ih =>
      obtain ⟨a, b⟩ := p
      by_cases ha : a == k
      · rw [dictGet, if_pos ha] at h
        exact absurd h (by simp)
      · rw [dictGet, if_neg (by simpa using ha)] at h
        simp only [dictSet, ha, Bool.false_eq_true, if_false, List.filter_cons, ha]
        simpa using ih h

/-- Unfolding of `send_message` when the session id is present: the user
turn is appended first, then the completion request is built according to
the chain state, and the result is dispatched on the upstream outcome. -/
theorem send_message_found (c : CompletionRequest → Except String CompletionResponse)
    (store : Store) (sid msg now : String) (s : Session)
    (hs : dictGet store sid = some s) :
    send_message c store sid msg now =
      (let messages1 := s.messages ++ [⟨"user", msg⟩]
       let session1 := { s with messages := messages1 }
       let store1 := dictSet store sid session1
       let req : CompletionRequest :=
         if truthy s.last_response_id then
           .chained s.model (s.last_response_id.getD "") [⟨"user", msg⟩]
         else
           .full s.model messages1
       match c req with
       | .error e =>
           (.error ⟨500, "Error communicating with Azure OpenAI: " ++ e⟩,
             store1, [req])
       | .ok resp =>
           let messages2 := messages1 ++ [⟨"assistant", resp.output_text⟩]
           let session2 :=
             { session1 with
                 messages := messages2
                 last_response_id := some resp.id }
           (.ok { session_id := sid, user_message := msg,
                  assistant_message := resp.output_text,
                  response_id := resp.id, timestamp := now },
             dictSet store1 sid session2, [req])) := by
  unfold send_message
  rw [hs]

/-- After a successful turn the store maps the session to its updated
record, and exactly one upstream request was issued, full or chained
according to the session's chain state before the turn. -/
theorem send_message_ok_state (store : Store) (sid msg now : String)
    (r : CompletionResponse) (s : Session) (hs : dictGet store sid = some s) :
    (send_message (fun _ => .ok r) store sid msg now).2.1
        = dictSet store sid
            { s with
                messages := s.messages ++ [⟨"user", msg⟩, ⟨"assistant", r.output_text⟩]
                last_response_id := some r.id }
    ∧ (send_message (fun _ => .ok r) store sid msg now).2.2
        = [if truthy s.last_response_id then
             .chained s.model (s.last_response_id.getD "") [⟨"user", msg⟩]
           else
             .full s.model (s.messages ++ [⟨"user", msg⟩])] := by
  rw [send_message_found (fun _ => .ok r) store sid msg now s hs]
  cases htr : truthy s.last_response_id <;>
    simp [htr, dictSet_dictSet, List.append_assoc]

theorem chained_reqs_length (model rid : String)
    (ts : List (String × CompletionResponse)) :
    (chained_reqs model rid ts).length = ts.length := by
  induction ts generalizing rid with
  | nil => rfl
  | cons p rest ih =>
      obtain ⟨u, r⟩ := p
      simp [chained_reqs, ih]

theorem chained_reqs_filter_full (model rid : String)
    (ts : List (String × CompletionResponse)) :
    (chained_reqs model rid ts).filter CompletionRequest.isFull = [] := by
  induction ts generalizing rid with
  | nil => rfl
  | cons p rest ih =>
      obtain ⟨u, r⟩ := p
      simp [chained_reqs, List.filter_cons, CompletionRequest.isFull, ih]

theorem chained_reqs_filter_chained (model rid : String)
    (ts : List (String × CompletionResponse)) :
    (chained_reqs model rid ts).filter CompletionRequest.isChained
      = chained_reqs model rid ts := by
  induction ts generalizing rid with
  | nil => rfl
  | cons p rest ih =>
      obtain ⟨u, r⟩ := p
      simp [chained_reqs, List.filter_cons, CompletionRequest.isChained, ih]

/-- Once a session's chain id is set (to a non-empty id), every further
successful turn issues exactly one chained request carrying only that
turn's user message and the id returned for the previous turn. -/
theorem run_turns_chained (ts : List (String × CompletionResponse)) :
    ∀ (store : Store) (sid : String) (s : Session) (rid : String),
      dictGet store sid = some s → s.last_response_id = some rid →
      rid ≠ "" → (∀ p ∈ ts, p.2.id ≠ "") →
      (run_turns store sid ts).2 = chained_reqs s.model rid ts := by
  induction ts with
  | nil => intro store sid s rid _ _ _ _; rfl
  | cons p rest ih =>
      obtain ⟨u, r⟩ := p
      intro store sid s rid hs hrid hne hids
      have htr : truthy s.last_response_id = true := by
        rw [hrid]; simpa [truthy] using hne
      obtain ⟨hstate, hreqs⟩ := send_message_ok_state store sid u "" r s hs
      have hrec := ih (send_message (fun _ => .ok r) store sid u "").2.1 sid
          { s with
              messages := s.messages ++ [⟨"user", u⟩, ⟨"assistant", r.output_text⟩]
              last_response_id := some r.id } r.id
          (by rw [hstate]; exact dictGet_dictSet_self _ sid _) rfl
          (hids (u, r) (List.mem_cons_self _ _))
          (fun q hq => hids q (List.mem_cons_of_mem _ hq))
      have hgoal : (run_turns store sid ((u, r) :: rest)).2
          = (send_message (fun _ => .ok r) store sid u "").2.2
              ++ (run_turns (send_message (fun _ => .ok r) store sid u "").2.1 sid rest).2 := rfl
      rw [hgoal, hreqs, hrec, htr, hrid]
      simp [chained_reqs]

/-! ## Claim theorems -/

/-- C1: starting from a session whose chain id is unset, a run of N
successful turns issues the full-history request exactly once, namely on
the first turn (carrying the accumulated history plus the new user turn),
and every later turn issues one chained request carrying only its user
turn and the chain id returned for the previous turn, so the trace is 1
full request and N−1 chained requests and the full transcript is never
re-sent. -/
theorem relay_chain_continuity (store : Store) (sid : String) (s : Session)
    (hs : dictGet store sid = some s)
    (hunset : truthy s.last_response_id = false)
    (u1 : String) (r1 : CompletionResponse)
    (rest : List (String × CompletionResponse))
    (hids : ∀ p ∈ (u1, r1) :: rest, p.2.id ≠ "") :
    (run_turns store sid ((u1, r1) :: rest)).2
        = .full s.model (s.messages ++ [⟨"user", u1⟩])
            :: chained_reqs s.model r1.id rest
    ∧ (run_turns store sid ((u1, r1) :: rest)).2.length
        = ((u1, r1) :: rest).length
    ∧ ((run_turns store sid ((u1, r1) :: rest)).2.filter
          CompletionRequest.isFull).length = 1
    ∧ ((run_turns store sid ((u1, r1) :: rest)).2.filter
          CompletionRequest.isChained).length = ((u1, r1) :: rest).length - 1 := by
  obtain ⟨hstate, hreqs⟩ := send_message_ok_state store sid u1 "" r1 s hs
  have hchain := run_turns_chained rest
      (send_message (fun _ => .ok r1) store sid u1 "").2.1 sid
      { s with
          messages := s.messages ++ [⟨"user", u1⟩, ⟨"assistant", r1.output_text⟩]
          last_response_id := some r1.id } r1.id
      (by rw [hstate]; exact dictGet_dictSet_self _ sid _) rfl
      (hids (u1, r1) (List.mem_cons_self _ _))
      (fun q hq => hids q (List.mem_cons_of_mem _ hq))
  have hgoal : (run_turns store sid ((u1, r1) :: rest)).2
      = (send_message (fun _ => .ok r1) store sid u1 "").2.2
          ++ (run_turns (send_message (fun _ => .ok r1) store sid u1 "").2.1 sid rest).2 := rfl
  have h1 : (run_turns store sid ((u1, r1) :: rest)).2
      = .full s.model (s.messages ++ [⟨"user", u1⟩])
          :: chained_reqs s.model r1.id rest := by
    rw [hgoal, hreqs, hunset, hchain]
    simp [chained_reqs]
  refine ⟨h1, ?_, ?_, ?_⟩
  · rw [h1]
    simp [chained_reqs_length]
  · rw [h1]
    simp [List.filter_cons, CompletionRequest.isFull, chained_reqs_filter_full]
  · rw [h1]
    simp [List.filter_cons, CompletionRequest.isChained, chained_reqs_filter_chained,
      chained_reqs_length]

theorem relay_chain_continuity_witness :
    (run_turns demoStore "s1" [("hi", ⟨"A", "id1"⟩), ("again", ⟨"B", "id2"⟩)]).2
        = .full demoSession.model (demoSession.messages ++ [⟨"user", "hi"⟩])
            :: chained_reqs demoSession.model "id1" [("again", ⟨"B", "id2"⟩)]
    ∧ (run_turns demoStore "s1" [("hi", ⟨"A", "id1"⟩), ("again", ⟨"B", "id2"⟩)]).2.length = 2
    ∧ ((run_turns demoStore "s1" [("hi", ⟨"A", "id1"⟩), ("again", ⟨"B", "id2"⟩)]).2.filter
          CompletionRequest.isFull).length = 1
    ∧ ((run_turns demoStore "s1" [("hi", ⟨"A", "id1"⟩), ("again", ⟨"B", "id2"⟩)]).2.filter
          CompletionRequest.isChained).length = 1 := by
  exact relay_chain_continuity demoStore "s1" demoSession rfl rfl "hi" ⟨"A", "id1"⟩
    [("again", ⟨"B", "id2"⟩)] (by decide)

/-- C2: a successful turn on an existing session appends exactly the user
turn and the assistant turn to the history (length grows by 2), stores the
response id returned by the completion client as the session's chain id,
and returns the assistant text together with that id. -/
theorem relay_turn_success (store : Store) (sid msg now : String)
    (resp : CompletionResponse) (s : Session)
    (hs : dictGet store sid = some s) :
    (send_message (fun _ => .ok resp) store sid msg now).1
        = .ok { session_id := sid, user_message := msg,
                assistant_message := resp.output_text,
                response_id := resp.id, timestamp := now }
    ∧ dictGet (send_message (fun _ => .ok resp) store sid msg now).2.1 sid
        = some { s with
                   messages :=
                     s.messages ++ [⟨"user", msg⟩, ⟨"assistant", resp.output_text⟩]
                   last_response_id := some resp.id }
    ∧ ∀ s2, dictGet (send_message (fun _ => .ok resp) store sid msg now).2.1 sid
          = some s2 → s2.messages.length = s.messages.length + 2 := by
  rw [send_message_found (fun _ => .ok resp) store sid msg now s hs]
  cases htr : truthy s.last_response_id <;>
    simp [htr, dictGet_dictSet_self, List.append_assoc]

theorem relay_turn_success_witness :
    (send_message (fun _ => .ok demoResp) demoStore "s1" "hello" "t1").1
        = .ok { session_id := "s1", user_message := "hello",
                assistant_message := "Hi there", response_id := "resp-1",
                timestamp := "t1" }
    ∧ dictGet (send_message (fun _ => .ok demoResp) demoStore "s1" "hello" "t1").2.1 "s1"
        = some { demoSession with
                   messages := [⟨"user", "hello"⟩, ⟨"assistant", "Hi there"⟩]
                   last_response_id := some "resp-1" }
    ∧ ({ demoSession with
           messages := [⟨"user", "hello"⟩, ⟨"assistant", "Hi there"⟩]
           last_response_id := some "resp-1" } : Session).messages.length
        = demoSession.messages.length + 2 := by
  have h := relay_turn_success demoStore "s1" "hello" "t1" demoResp demoSession rfl
  exact ⟨h.1, h.2.1, h.2.2 _ h.2.1⟩

/-- C3: when the upstream completion call fails, the turn reports the
wrapped upstream error (HTTP 500 carrying the original exception detail),
the already-appended user turn stays in the history, no assistant turn is
appended, the chain id is unchanged, and no other session is touched. -/
theorem relay_turn_failure (store : Store) (sid msg now e : String) (s : Session)
    (hs : dictGet store sid = some s) :
    (send_message (fun _ => .error e) store sid msg now).1
        = .error ⟨500, "Error communicating with Azure OpenAI: " ++ e⟩
    ∧ dictGet (send_message (fun _ => .error e) store sid msg now).2.1 sid
        = some { s with messages := s.messages ++ [⟨"user", msg⟩] }
    ∧ (∀ k, k ≠ sid →
        dictGet (send_message (fun _ => .error e) store sid msg now).2.1 k
          = dictGet store k) := by
  rw [send_message_found (fun _ => .error e) store sid msg now s hs]
  cases htr : truthy s.last_response_id <;>
    simp [htr, dictGet_dictSet_self] <;>
    exact fun k hk => dictGet_dictSet_ne store sid k _ hk

theorem relay_turn_failure_witness :
    (send_message (fun _ => .error "boom") demoStore "s1" "hello" "t1").1
        = .error ⟨500, "Error communicating with Azure OpenAI: " ++ "boom"⟩
    ∧ dictGet (send_message (fun _ => .error "boom") demoStore "s1" "hello" "t1").2.1 "s1"
        = some { demoSession with messages := [⟨"user", "hello"⟩] }
    ∧ dictGet (send_message (fun _ => .error "boom") demoStore "s1" "hello" "t1").2.1 "s2"
        = dictGet demoStore "s2" := by
  have h := relay_turn_failure demoStore "s1" "hello" "t1" "boom" demoSession rfl
  exact ⟨h.1, h.2.1, h.2.2 "s2" (by decide)⟩

/-- C4: in the stream produced by the streaming message handler, all
informative frames precede all incremental frames which precede the final
frame, the sequence numbers across the informative and incremental phases
are strictly increasing starting at 1, exactly one final frame is emitted,
it is the last frame, and it carries no sequence number. -/
theorem streaming_frame_ordering :
    ((on_message_frames full_response).filterMap Frame.streamSequence).head? = some 1
    ∧ List.Pairwise (fun a b => a < b)
        ((on_message_frames full_response).filterMap Frame.streamSequence)
    ∧ List.Pairwise
        (fun a b : Frame => phaseRank a.streamType ≤ phaseRank b.streamType)
        (on_message_frames full_response)
    ∧ ((on_message_frames full_response).filter
          (fun f => f.streamType == .final)).length = 1
    ∧ ((on_message_frames full_response).getLast?).map Frame.streamType
        = some .final
    ∧ ((on_message_frames full_response).getLast?).map Frame.streamSequence
        = some none := by
  decide

/-- C5 counterexample: the relay performs no input validation, so the
empty user message is not rejected: an upstream completion call is
issued for it, the turn reports success, and the empty user turn plus
the assistant turn are recorded in the session history. -/
theorem relay_no_input_validation_counterexample :
    (send_message okCompletion demoStore "s1" "" "t1").2.2
        = [.full "gpt-4o" [⟨"user", ""⟩]]
    ∧ (send_message okCompletion demoStore "s1" "" "t1").1
        = .ok { session_id := "s1", user_message := "",
                assistant_message := "Hi there", response_id := "resp-1",
                timestamp := "t1" }
    ∧ dictGet (send_message okCompletion demoStore "s1" "" "t1").2.1 "s1"
        = some { session_id := "s1", created_at := "t0", model := "gpt-4o",
                 messages := [⟨"user", ""⟩, ⟨"assistant", "Hi there"⟩],
                 last_response_id := some "resp-1" } := by
  exact ⟨rfl, rfl, rfl⟩

/-- C5 amended: the turn operation rejects nothing: for every user
message — empty and whitespace-only messages included — it appends the
user turn to the session history and issues exactly one upstream
completion call; no InvalidInput error path exists. -/
theorem relay_no_input_validation
    (c : CompletionRequest → Except String CompletionResponse)
    (store : Store) (sid msg now : String) (s : Session)
    (hs : dictGet store sid = some s) :
    (send_message c store sid msg now).2.2.length = 1
    ∧ ∃ s2, dictGet (send_message c store sid msg now).2.1 sid = some s2
        ∧ s2.messages.take (s.messages.length + 1)
            = s.messages ++ [⟨"user", msg⟩] := by
  rw [send_message_found c store sid msg now s hs]
  cases htr : truthy s.last_response_id <;>
    cases hc : c (if truthy s.last_response_id then
           .chained s.model (s.last_response_id.getD "") [⟨"user", msg⟩]
         else
           .full s.model (s.messages ++ [⟨"user", msg⟩])) <;>
    simp_all [dictGet_dictSet_self, take_append_pair]

theorem relay_no_input_validation_witness :
    (send_message okCompletion demoStore "s1" "   " "t1").2.2.length = 1
    ∧ ∃ s2, dictGet (send_message okCompletion demoStore "s1" "   " "t1").2.1 "s1"
          = some s2
        ∧ s2.messages.take (demoSession.messages.length + 1)
            = demoSession.messages ++ [⟨"user", "   "⟩] := by
  exact relay_no_input_validation okCompletion demoStore "s1" "   " "t1" demoSession rfl

/-- C6 counterexample: a turn whose first backend call is a session
creation that fails with HTTP 500 — a 5xx failure, not an unknown session
id — is not surfaced to the user: because the raised message
`Failed to create session: 500` contains the substring `session`, the bot
silently retries (a second creation plus a send), and the user receives
the assistant reply with no error. -/
theorem teams_retry_policy_counterexample :
    clientCreateSession (oracleCreate500 0)
        = .error "Failed to create session: 500"
    ∧ isSessionError "Failed to create session: 500" = true
    ∧ on_message_teams oracleCreate500 [] "conv1" "hi"
        = ⟨[.createSession, .createSession, .sendMsg "sid2" "hi"],
            [("conv1", "sid2")], ["reply"]⟩ := by
  exact ⟨rfl, by decide, by decide⟩

/-- C6 amended: for a turn on an existing session whose send fails, the
bot classifies the failure by its message text, not by failure class: if
the message contains `404` or, case-insensitively, `session` (the relay's
session-not-found message does), it creates a brand-new session and
retries the same user message exactly once against it, surfacing an error
activity only if the retry fails; if the message contains neither
substring the error activity is sent immediately with no further backend
call. -/
theorem teams_retry_policy (oracle : Nat → HttpOutcome) (sessions : Dict String)
    (conv msg sid m : String)
    (hmsg : (msg == "" || pyStartsWith msg "/") = false)
    (hsid : dictGet sessions conv = some sid) (hsid2 : (sid == "") = false)
    (hfail : clientSendMessage (oracle 0) = .error m) :
    (isSessionError m = false →
        on_message_teams oracle sessions conv msg
          = ⟨[.sendMsg sid msg], sessions, [genericErrorActivity]⟩)
    ∧ (isSessionError m = true →
        (∀ e2, clientCreateSession (oracle 1) = .error e2 →
            on_message_teams oracle sessions conv msg
              = ⟨[.sendMsg sid msg, .createSession], sessions, [troubleActivity]⟩)
        ∧ (∀ sid2, clientCreateSession (oracle 1) = .ok sid2 →
            (∀ resp, clientSendMessage (oracle 2) = .ok resp →
                on_message_teams oracle sessions conv msg
                  = ⟨[.sendMsg sid msg, .createSession, .sendMsg sid2 msg],
                      dictSet sessions conv sid2, [resp]⟩)
            ∧ (∀ e3, clientSendMessage (oracle 2) = .error e3 →
                on_message_teams oracle sessions conv msg
                  = ⟨[.sendMsg sid msg, .createSession, .sendMsg sid2 msg],
                      dictSet sessions conv sid2, [troubleActivity]⟩))) := by
  have hrun : on_message_teams oracle sessions conv msg
      = handleTurnError oracle 1 [.sendMsg sid msg] sessions conv msg m := by
    unfold on_message_teams
    simp only [hmsg, hsid, hsid2, hfail, Bool.false_eq_true, if_false]
  constructor
  · intro hcls
    rw [hrun]
    unfold handleTurnError
    rw [hcls]
    rfl
  · intro hcls
    constructor
    · intro e2 hc
      rw [hrun]
      unfold handleTurnError
      rw [hcls, hc]
      rfl
    · intro sid2 hc
      constructor
      · intro resp hsend
        rw [hrun]
        unfold handleTurnError
        simp [hcls, hc, hsend]
      · intro e3 hsend
        rw [hrun]
        unfold handleTurnError
        simp [hcls, hc, hsend]

theorem teams_retry_policy_witness :
    on_message_teams oracle404ThenOk demoConvSessions "c" "hello"
      = ⟨[.sendMsg "sidA" "hello", .createSession, .sendMsg "sidB" "hello"],
          dictSet demoConvSessions "c" "sidB", ["all good"]⟩ := by
  exact (((teams_retry_policy oracle404ThenOk demoConvSessions "c" "hello" "sidA"
      "Session not found" (by decide) rfl (by decide) rfl).2
    (by decide)).2 "sidB" rfl).1 "all good" rfl

/-- C7: sending a message to a session id not present in the store yields
the 404 `Session not found` error, the store is unchanged, and no
upstream request is issued. -/
theorem relay_unknown_session (c : CompletionRequest → Except String CompletionResponse)
    (store : Store) (sid msg now : String)
    (hs : dictGet store sid = none) :
    send_message c store sid msg now
      = (.error ⟨404, "Session not found"⟩, store, []) := by
  unfold send_message
  rw [hs]

theorem relay_unknown_session_witness :
    send_message okCompletion demoStore "nope" "hello" "t1"
      = (.error ⟨404, "Session not found"⟩, demoStore, []) := by
  exact relay_unknown_session okCompletion demoStore "nope" "hello" "t1" rfl

/-- C8: deleting a present session succeeds and removes it; deleting the
same id again, or any absent id, reports the 404 not-found error rather
than success, so two consecutive deletes of one id never both succeed. -/
theorem delete_session_idempotent (store : Store) (sid : String) :
    (dictGet store sid = none →
        delete_session store sid = (.error ⟨404, "Session not found"⟩, store))
    ∧ (∀ s, dictGet store sid = some s →
        (delete_session store sid).1
            = .ok ("Session " ++ sid ++ " deleted successfully")
        ∧ dictGet (delete_session store sid).2 sid = none
        ∧ (delete_session (delete_session store sid).2 sid).1
            = .error ⟨404, "Session not found"⟩
        ∧ (∀ k, k ≠ sid →
            dictGet (delete_session store sid).2 k = dictGet store k)) := by
  constructor
  · intro h
    unfold delete_session
    rw [h]
  · intro s hsome
    have hdel : (delete_session store sid).2 = dictDel store sid := by
      unfold delete_session
      rw [hsome]
    refine ⟨?_, ?_, ?_, ?_⟩
    · unfold delete_session
      rw [hsome]
    · rw [hdel]
      exact dictGet_dictDel_self store sid
    · rw [hdel]
      unfold delete_session
      rw [dictGet_dictDel_self store sid]
    · intro k hk
      rw [hdel]
      exact dictGet_dictDel_ne store sid k hk

theorem delete_session_idempotent_witness :
    (delete_session demoStore "s1").1
        = .ok ("Session " ++ "s1" ++ " deleted successfully")
    ∧ dictGet (delete_session demoStore "s1").2 "s1" = none
    ∧ (delete_session (delete_session demoStore "s1").2 "s1").1
        = .error ⟨404, "Session not found"⟩ := by
  have h := (delete_session_idempotent demoStore "s1").2 demoSession rfl
  exact ⟨h.1, h.2.1, h.2.2.1⟩

/-- C9: creating a session under a generated id that is not already live
(the uuid4 freshness assumption) returns a session with that id, empty
history and no chain id, stores it under exactly one entry for that id,
and leaves every other live session's record untouched — in particular no
existing live session is replaced. -/
theorem create_session_fresh (store : Store) (sid model created : String)
    (h : dictGet store sid = none) :
    (create_session sid model created store).1.session_id = sid
    ∧ (create_session sid model created store).1.messages = []
    ∧ (create_session sid model created store).1.last_response_id = none
    ∧ dictGet (create_session sid model created store).2 sid
        = some (create_session sid model created store).1
    ∧ ((create_session sid model created store).2.filter
          (fun p => p.1 == sid)).length = 1
    ∧ (∀ k, k ≠ sid →
        dictGet (create_session sid model created store).2 k = dictGet store k) := by
  refine ⟨rfl, rfl, rfl, dictGet_dictSet_self store sid _, ?_, ?_⟩
  · exact filter_key_dictSet_of_none store sid _ h
  · exact fun k hk => dictGet_dictSet_ne store sid k _ hk

theorem create_session_fresh_witness :
    (create_session "s9" "gpt-4o" "t2" demoStore).1.session_id = "s9"
    ∧ (create_session "s9" "gpt-4o" "t2" demoStore).1.messages = []
    ∧ (create_session "s9" "gpt-4o" "t2" demoStore).1.last_response_id = none
    ∧ dictGet (create_session "s9" "gpt-4o" "t2" demoStore).2 "s9"
        = some (create_session "s9" "gpt-4o" "t2" demoStore).1
    ∧ ((create_session "s9" "gpt-4o" "t2" demoStore).2.filter
          (fun p => p.1 == "s9")).length = 1
    ∧ dictGet (create_session "s9" "gpt-4o" "t2" demoStore).2 "s1"
        = dictGet demoStore "s1" := by
  have h := create_session_fresh demoStore "s9" "gpt-4o" "t2" rfl
  exact ⟨h.1, h.2.1, h.2.2.1, h.2.2.2.1, h.2.2.2.2.1, h.2.2.2.2.2 "s1" (by decide)⟩

/-- C10: the k-th incremental frame of the stream carries exactly the
first k whitespace-separated words of the response text joined by single
spaces, so each incremental frame's text is a prefix of the next and the
last incremental frame's text equals the text of the terminal final
frame. -/
theorem streaming_cumulative_text :
    (((on_message_frames full_response).filter
          (fun f => f.streamType == .streaming)).map Frame.text)
        = (List.range (pySplit full_response).length).map
            (fun k => " ".intercalate ((pySplit full_response).take (k + 1)))
    ∧ List.Pairwise (fun a b : String => a.toList.isPrefixOf b.toList)
        (((on_message_frames full_response).filter
            (fun f => f.streamType == .streaming)).map Frame.text)
    ∧ (((on_message_frames full_response).filter
          (fun f => f.streamType == .streaming)).map Frame.text).getLast?
        = some full_response
    ∧ ((on_message_frames full_response).getLast?).map Frame.text
        = some full_response := by
  refine ⟨by decide, by decide, by decide, by decide⟩

end AgentToTeams
